import Mathlib

/-!
Shallow embedding of `src/rust/src/main.rs` from the repository
`whatsoverhead-in-space`, together with the statements it supports.

Conventions of the embedding:
* Instants and naive datetimes are integers counting nanoseconds since the
  Unix epoch (chrono datetimes have nanosecond resolution).  A chrono
  duration is the integer difference of two instants.
* `f64` arithmetic on times is idealized as exact rational arithmetic; the
  real-valued trigonometry of `haversine_distance` is idealized over `ℝ`.
* A Rust `.unwrap()` / `.expect(..)` panic is modelled as the `Except.error`
  case: the whole computation aborts with a message.
* The external `sgp4` crate (types `Constants`, the prediction type, and the
  fallible operations `Constants::from_elements` and `Constants::propagate`)
  is an external collaborator, not repository code; it is abstracted as a
  record `Sgp4Lib` of two fallible functions over opaque type parameters.
-/

namespace WhatsOverhead

/-- Embedding of `f64::to_radians` as used in `haversine_distance`:
multiplication by pi over 180. -/
noncomputable def toRadians (x : ℝ) : ℝ := x * (Real.pi / 180)

/-- Mathematical meaning of `f64::atan2 (self = y, other = x)`: the angle of
the point `(x, y)`, in `(-pi, pi]`, with `atan2 0 0 = 0`.  The Rust function
is from the standard library (an external collaborator); this is its
standard specification restricted to non-NaN arguments. -/
noncomputable def atan2 (y x : ℝ) : ℝ :=
  if 0 < x then Real.arctan (y / x)
  else if x < 0 then
    (if 0 ≤ y then Real.arctan (y / x) + Real.pi else Real.arctan (y / x) - Real.pi)
  else
    (if 0 < y then Real.pi / 2 else if y < 0 then -(Real.pi / 2) else 0)

/-- The intermediate `a` of `haversine_distance` (main.rs lines 42 to 45):
`let d_lat = (lat2 - lat1).to_radians();`
`let d_lon = (lon2 - lon1).to_radians();`
`let a = (d_lat / 2.0).sin().powi(2) + lat1.to_radians().cos() * lat2.to_radians().cos() * (d_lon / 2.0).sin().powi(2);` -/
noncomputable def haversineA (lat1 lon1 lat2 lon2 : ℝ) : ℝ :=
  Real.sin (toRadians (lat2 - lat1) / 2) ^ 2 +
    Real.cos (toRadians lat1) * Real.cos (toRadians lat2) *
      Real.sin (toRadians (lon2 - lon1) / 2) ^ 2

/-- Embedding of `haversine_distance` (main.rs lines 40 to 48), with the
intermediate `a` factored into `haversineA`:
`let r = 6371.0;` ... `let c = 2.0 * a.sqrt().atan2((1.0 - a).sqrt());` `r * c` -/
noncomputable def haversine_distance (lat1 lon1 lat2 lon2 : ℝ) : ℝ :=
  let r : ℝ := 6371.0
  let a := haversineA lat1 lon1 lat2 lon2
  let c := 2 * atan2 (Real.sqrt a) (Real.sqrt (1 - a))
  r * c

/-- The formula stated by the specification for the haversine ranker, written
from the words of the spec (not from the source), for comparison with
`haversine_distance`: R times `2*atan2(sqrt a, sqrt (1-a))` where
`a = sin^2(dlat/2) + cos(lat1)*cos(lat2)*sin^2(dlon/2)`, angles in radians,
R = 6371.0 km. -/
noncomputable def haversineClaimFormula (lat1 lon1 lat2 lon2 : ℝ) : ℝ :=
  let p1 := toRadians lat1
  let p2 := toRadians lat2
  let l1 := toRadians lon1
  let l2 := toRadians lon2
  let a := Real.sin ((p2 - p1) / 2) ^ 2 +
    Real.cos p1 * Real.cos p2 * Real.sin ((l2 - l1) / 2) ^ 2
  6371.0 * (2 * atan2 (Real.sqrt a) (Real.sqrt (1 - a)))

/-- Embedding of `chrono::Duration::num_seconds` on a duration of `ns`
nanoseconds: the number of whole seconds, truncated toward zero. -/
def numSeconds (ns : ℤ) : ℤ := Int.tdiv ns 1000000000

/-- Embedding of main.rs line 27:
`let epoch_minutes = (time_diff.num_seconds() as f64) / 60.0;`
The `as f64` cast and the division are idealized as exact rational
arithmetic on the truncated whole-second count. -/
def epoch_minutes (timeDiffNs : ℤ) : ℚ := ((numSeconds timeDiffNs : ℤ) : ℚ) / 60

/-- Written from the words of the spec (not from the source), for comparison:
the exact difference expressed in minutes, sub-second precision preserved. -/
def specExactMinutes (timeDiffNs : ℤ) : ℚ := (timeDiffNs : ℚ) / 1000000000 / 60

/-- The fields of `sgp4::Elements` that the repository code reads directly:
the catalog identity, the naive element-set epoch (`sat.datetime`,
nanoseconds since the Unix epoch, no timezone attached), and the mean motion
in revolutions per day.  The remaining orbital fields are consumed only by
the external `sgp4` crate and are therefore behind the `Sgp4Lib`
abstraction. -/
structure Elements where
  norad_id : ℕ
  datetime : ℤ
  mean_motion : ℚ
  deriving DecidableEq, Repr

/-- Embedding of main.rs line 25:
`let sat_utc_dt = chrono::Utc.from_local_datetime(&sat_ndt).unwrap();`
For the UTC timezone, `from_local_datetime` always returns a single result
carrying the same clock reading, so the naive timestamp is reinterpreted as
the identical UTC instant and the `.unwrap()` never fails. -/
def fromLocalUtc (naiveNs : ℤ) : ℤ := naiveNs

/-- Abstraction of the external `sgp4` crate: `C` stands for
`sgp4::Constants`, `P` for the prediction type; `fromElements` for the
fallible `Constants::from_elements`, `propagate` for the fallible
`Constants::propagate` applied to an offset in minutes. -/
structure Sgp4Lib (C P : Type) where
  fromElements : Elements → Except String C
  propagate : C → ℚ → Except String P

/-- Embedding of the per-satellite closure of main.rs lines 22 to 33.  Each
`.unwrap()` is an abort point.  The returned pair records the values printed
by the `println!` on line 28 (the UTC epoch and the offset in minutes) for a
satellite on which no `.unwrap()` panicked; the closure itself returns the
unit value in the source, and the printed pair is kept here only so that the
observable output of a successful run is part of the model. -/
def processSat {C P : Type} (lib : Sgp4Lib C P) (now : ℤ) (sat : Elements) :
    Except String (ℤ × ℚ) :=
  match lib.fromElements sat with
  | .error e => .error e
  | .ok constants =>
    let satNdt := sat.datetime
    let satUtcDt := fromLocalUtc satNdt
    let timeDiff := now - satUtcDt
    let em := epoch_minutes timeDiff
    match lib.propagate constants em with
    | .error e => .error e
    | .ok _prediction => .ok (satUtcDt, em)

/-- The iteration of main.rs lines 20 to 35: the satellites are processed in
order and the first panic aborts everything after it. -/
def runSats {C P : Type} (lib : Sgp4Lib C P) (now : ℤ) :
    List Elements → Except String (List (ℤ × ℚ))
  | [] => .ok []
  | sat :: rest =>
    match processSat lib now sat with
    | .error e => .error e
    | .ok entry =>
      match runSats lib now rest with
      | .error e => .error e
      | .ok entries => .ok (entry :: entries)

/-- The observable outcome of the propagation loop of `main`: the collected
`predictions` vector (whose elements are the unit values returned by the
closure) and the per-satellite values printed on the way.  There is no
ranking, no geodetic position, no distance and no failures list in the
output, because the source computes none of them. -/
structure QueryOutput where
  predictions : List Unit
  epochTrace : List (ℤ × ℚ)
  deriving DecidableEq, Repr

/-- Embedding of the body of `main` after the catalog is decoded (main.rs
lines 18 to 36): run the per-satellite closure over the catalog and collect
`Vec<()>`.  The `now` argument is the value read from the process clock on
line 18 (`let now = chrono::Utc::now();`), made explicit here. -/
def runQuery {C P : Type} (lib : Sgp4Lib C P) (sats : List Elements) (now : ℤ) :
    Except String QueryOutput :=
  match runSats lib now sats with
  | .error e => .error e
  | .ok trace => .ok { predictions := sats.map (fun _ => ()), epochTrace := trace }

/-- One raw OMM record as fed to serde on main.rs line 9.  Only the fields
that the decoded `Elements` of this embedding carries are modelled; a `none`
field stands for a missing or ill-typed JSON field, which is what makes a
record malformed for the serde derive of `sgp4::Elements`. -/
structure RawRecord where
  noradCatId : Option ℕ
  epoch : Option ℤ
  meanMotion : Option ℚ
  deriving DecidableEq, Repr

/-- Deserialization of one element of the JSON array into `sgp4::Elements`:
fails when a required field is missing or ill-typed. -/
def decodeRecord (r : RawRecord) : Except String Elements :=
  match r.noradCatId with
  | none => .error "missing field NORAD_CAT_ID"
  | some id =>
    match r.epoch with
    | none => .error "missing field EPOCH"
    | some ep =>
      match r.meanMotion with
      | none => .error "missing field MEAN_MOTION"
      | some mm => .ok { norad_id := id, datetime := ep, mean_motion := mm }

/-- Embedding of main.rs lines 9 to 10:
`let satellites: Vec<sgp4::Elements> = serde_json::from_str(&data).expect("JSON was not well-formatted");`
Deserializing `Vec<sgp4::Elements>` stops at the first record that fails to
decode and the whole call returns that error; the `.expect` then panics, so
no record at all is returned. -/
def decodeCatalog : List RawRecord → Except String (List Elements)
  | [] => .ok []
  | r :: rest =>
    match decodeRecord r with
    | .error e => .error e
    | .ok elt =>
      match decodeCatalog rest with
      | .error e => .error e
      | .ok elts => .ok (elt :: elts)

/-- The whole of `main` (lines 6 to 37): decode the catalog (panicking on the
first malformed record), then run the propagation loop with the clock value
read on line 18. -/
def runMain {C P : Type} (lib : Sgp4Lib C P) (raw : List RawRecord) (now : ℤ) :
    Except String QueryOutput :=
  match decodeCatalog raw with
  | .error e => .error e
  | .ok sats => runQuery lib sats now

/-- Modelled from the spec: one entry of the ranking of sections 4.5 and 6 of
the specification.  The source never builds a ranking (`main` discards every
propagation result), so the ranker is missing from the repository; only the
catalog id and the selected distance metric take part in the ordering, and
the float metric is idealized as an exact rational. -/
structure RankEntry where
  id : ℕ
  distance : ℚ
  deriving DecidableEq, Repr

/-- Modelled from the spec: the total order of the ranking, ascending by the
selected metric with ties broken by catalog id ascending. -/
def rankLe (a b : RankEntry) : Prop :=
  a.distance < b.distance ∨ (a.distance = b.distance ∧ a.id ≤ b.id)

instance : DecidableRel rankLe := fun a b => by
  unfold rankLe
  exact inferInstance

instance : IsTotal RankEntry rankLe where
  total a b := by
    rcases lt_trichotomy a.distance b.distance with h | h | h
    · exact Or.inl (Or.inl h)
    · rcases Nat.le_total a.id b.id with hid | hid
      · exact Or.inl (Or.inr ⟨h, hid⟩)
      · exact Or.inr (Or.inr ⟨h.symm, hid⟩)
    · exact Or.inr (Or.inl h)

instance : IsTrans RankEntry rankLe where
  trans a b c hab hbc := by
    rcases hab with hab | ⟨hab, haid⟩
    · rcases hbc with hbc | ⟨hbc, _⟩
      · exact Or.inl (hab.trans hbc)
      · exact Or.inl (hbc ▸ hab)
    · rcases hbc with hbc | ⟨hbc, hbid⟩
      · exact Or.inl (hab ▸ hbc)
      · exact Or.inr ⟨hab.trans hbc, haid.trans hbid⟩

/-- Modelled from the spec: the ranker of section 4.5 sorts the collected
per-satellite results by (metric, id); missing from the repository source. -/
def rankResults (entries : List RankEntry) : List RankEntry :=
  List.insertionSort rankLe entries

/-- A concrete instance of the sgp4 abstraction for evaluating the model at
concrete inputs: constants derivation rejects a catalog entry whose mean
motion is at most 6.4 revolutions per day (the near-Earth boundary used by
the crate: an orbital period of at least 225 minutes is deep space) and
propagation always succeeds. -/
def demoLib : Sgp4Lib Unit Unit where
  fromElements sat := if sat.mean_motion ≤ 64 / 10 then .error "deep space" else .ok ()
  propagate _ _ := .ok ()

/-- A well-formed near-Earth catalog entry: epoch at the Unix epoch, mean
motion 15.5 revolutions per day. -/
def goodSat : Elements := { norad_id := 25544, datetime := 0, mean_motion := 155 / 10 }

/-- A catalog entry that `demoLib.fromElements` rejects: mean motion 1
revolution per day, a deep-space orbit. -/
def badSat : Elements := { norad_id := 43226, datetime := 0, mean_motion := 1 }

/-- A raw record with every required field present. -/
def goodRec : RawRecord := { noradCatId := some 25544, epoch := some 0, meanMotion := some (155 / 10) }

/-- A malformed raw record: the mean motion field is missing. -/
def badRec : RawRecord := { noradCatId := some 43226, epoch := some 0, meanMotion := none }

/-! Helper lemmas shared by the claim theorems. -/

theorem toRadians_sub (x y : ℝ) : toRadians (x - y) = toRadians x - toRadians y := by
  unfold toRadians
  ring

theorem sin_sq_half_eq (t : ℝ) : Real.sin (t / 2) ^ 2 = (1 - Real.cos t) / 2 := by
  rw [Real.sin_sq, Real.cos_sq]
  have h : 2 * (t / 2) = t := by ring
  rw [h]
  ring

theorem atan2_nonneg_bounds {y x : ℝ} (hy : 0 ≤ y) (hx : 0 ≤ x) :
    0 ≤ atan2 y x ∧ atan2 y x ≤ Real.pi / 2 := by
  have hpi := Real.pi_pos
  unfold atan2
  rcases lt_or_eq_of_le hx with hx' | hx'
  · rw [if_pos hx']
    constructor
    · have hd : (0 : ℝ) ≤ y / x := div_nonneg hy hx
      have := Real.arctan_strictMono.monotone hd
      rwa [Real.arctan_zero] at this
    · exact (Real.arctan_lt_pi_div_two _).le
  · rw [if_neg (by rw [← hx']; exact lt_irrefl 0), if_neg (by rw [← hx']; exact lt_irrefl 0)]
    rcases lt_or_eq_of_le hy with hy' | hy'
    · rw [if_pos hy']
      exact ⟨by linarith, le_refl _⟩
    · rw [if_neg (by rw [← hy']; exact lt_irrefl 0), if_neg (by rw [← hy']; exact lt_irrefl 0)]
      exact ⟨le_refl _, by linarith⟩

theorem runSats_isOk {C P : Type} (lib : Sgp4Lib C P) (now : ℤ) (sats : List Elements) :
    (runSats lib now sats).isOk = sats.all (fun sat => (processSat lib now sat).isOk) := by
  induction sats with
  | nil => rfl
  | cons sat rest ih =>
    simp only [runSats, List.all_cons]
    cases h : processSat lib now sat with
    | error e => simp [Except.isOk, Except.toBool]
    | ok entry =>
      cases hr : runSats lib now rest with
      | error e => rw [← ih, hr]; simp [Except.isOk, Except.toBool]
      | ok entries => rw [← ih, hr]; simp [Except.isOk, Except.toBool]

/-! Claim theorems. -/

/-- C1, counterexample.  In the source every per-satellite failure goes
through `.unwrap()` (main.rs lines 23 and 29), so it panics and aborts the
whole query instead of being collected.  Concretely: `badSat` fails constants
derivation while `goodSat` succeeds on its own, yet the query over the
two-element catalog produces nothing at all — the failing satellite is not
surfaced in any failures list and the result of the other satellite is not
produced.  This refutes the claim that no per-satellite failure ever aborts
the query. -/
theorem unwrap_aborts_query_on_single_failure :
    (processSat demoLib 0 badSat).isOk = false ∧
      (processSat demoLib 0 goodSat).isOk = true ∧
      (runQuery demoLib [badSat, goodSat] 0).isOk = false := by
  refine ⟨?_, ?_, ?_⟩ <;>
    norm_num [runQuery, runSats, processSat, demoLib, badSat, goodSat, epoch_minutes,
      numSeconds, fromLocalUtc, Except.isOk, Except.toBool]

/-- C1, amended.  A satellite whose constants derivation or propagation
fails aborts the entire query (the `.unwrap()` panics): the query succeeds
exactly when every satellite of the catalog succeeds, and no failures list
exists. -/
theorem runQuery_ok_iff_all_sats_ok {C P : Type} (lib : Sgp4Lib C P)
    (sats : List Elements) (now : ℤ) :
    (runQuery lib sats now).isOk = sats.all (fun sat => (processSat lib now sat).isOk) := by
  rw [← runSats_isOk]
  unfold runQuery
  cases h : runSats lib now sats <;> simp [Except.isOk, Except.toBool]

/-- C2.  The per-satellite closure of `main` computes the propagation (a
failing propagation aborts the run, so on a successful run every propagation
was computed) and then discards it: the collected predictions vector is a
vector of unit values, carrying no position data, and the output contains no
geodetic conversion, no distance and no ranking. -/
theorem predictions_are_unit_only {C P : Type} (lib : Sgp4Lib C P) (sats : List Elements)
    (now : ℤ) (out : QueryOutput) (h : runQuery lib sats now = .ok out) :
    out.predictions = sats.map (fun _ => ()) ∧
      ∀ sat ∈ sats, (processSat lib now sat).isOk = true := by
  unfold runQuery at h
  cases hr : runSats lib now sats with
  | error e => rw [hr] at h; exact absurd h (by simp)
  | ok trace =>
    rw [hr] at h
    have hout := Except.ok.inj h
    constructor
    · rw [← hout]
    · intro sat hsat
      have hall : sats.all (fun s => (processSat lib now s).isOk) = true := by
        rw [← runSats_isOk, hr]; rfl
      exact List.all_eq_true.mp hall sat hsat

/-- C2, witness: the theorem applied to the one-satellite catalog
`[goodSat]` at instant 0. -/
theorem predictions_are_unit_only_witness :
    ({ predictions := [()], epochTrace := [(0, 0)] } : QueryOutput).predictions
        = [goodSat].map (fun _ => ()) ∧
      ∀ sat ∈ [goodSat], (processSat demoLib 0 sat).isOk = true :=
  predictions_are_unit_only demoLib [goodSat] 0 _ (by
    norm_num [runQuery, runSats, processSat, demoLib, goodSat, epoch_minutes, numSeconds,
      fromLocalUtc])

/-- C3, counterexample.  The query instant is not supplied by any caller: it
is read from the process clock inside `main` (line 18), and the observable
output depends on that reading.  Two runs over the identical catalog whose
clock readings differ by one minute produce different outputs, so the output
is not a function of the catalog and observer alone. -/
theorem runQuery_depends_on_clock_instant :
    runQuery demoLib [goodSat] 0 ≠ runQuery demoLib [goodSat] 60000000000 := by
  have h : Int.tdiv 60000000000 1000000000 = 60 := by decide
  norm_num [runQuery, runSats, processSat, demoLib, goodSat, epoch_minutes, numSeconds,
    fromLocalUtc, h, Prod.ext_iff]

/-- C3, amended.  The computation is deterministic in the inputs it actually
has: identical catalog and identical clock reading give identical output
(the embedding is a pure function, reflecting that the code reads no ambient
state other than the clock); but the instant itself comes from the process
clock inside `main`, not from the caller. -/
theorem runQuery_deterministic_in_inputs {C P : Type} (lib : Sgp4Lib C P)
    (sats₁ sats₂ : List Elements) (now₁ now₂ : ℤ)
    (hs : sats₁ = sats₂) (ht : now₁ = now₂) :
    runQuery lib sats₁ now₁ = runQuery lib sats₂ now₂ := by
  rw [hs, ht]

/-- C3, amended, witness: the determinism theorem applied at the catalog
`[goodSat]` and instant 0. -/
theorem runQuery_deterministic_in_inputs_witness :
    runQuery demoLib [goodSat] 0 = runQuery demoLib [goodSat] 0 :=
  runQuery_deterministic_in_inputs demoLib [goodSat] [goodSat] 0 0 rfl rfl

/-- C8, counterexample.  Catalog decoding is not per-record: deserializing
`Vec<sgp4::Elements>` stops at the first malformed record and the
`.expect(..)` on main.rs line 10 panics, so a catalog with one well-formed
and one malformed record yields no records at all — the well-formed record
is not returned and no (index, reason) report is produced. -/
theorem decodeCatalog_aborts_on_malformed_record :
    (decodeRecord goodRec).isOk = true ∧ (decodeRecord badRec).isOk = false ∧
      (decodeCatalog [goodRec, badRec]).isOk = false := by
  refine ⟨?_, ?_, ?_⟩ <;>
    norm_num [decodeCatalog, decodeRecord, goodRec, badRec, Except.isOk, Except.toBool]

/-- C8, amended.  A malformed record aborts decoding of the whole catalog:
decoding succeeds exactly when every record is well-formed, and on failure
no record is returned. -/
theorem decodeCatalog_ok_iff_all_records_ok (rs : List RawRecord) :
    (decodeCatalog rs).isOk = rs.all (fun r => (decodeRecord r).isOk) := by
  induction rs with
  | nil => rfl
  | cons r rest ih =>
    simp only [decodeCatalog, List.all_cons]
    cases h : decodeRecord r with
    | error e => simp [Except.isOk, Except.toBool]
    | ok elt =>
      cases hr : decodeCatalog rest with
      | error e => rw [← ih, hr]; simp [Except.isOk, Except.toBool]
      | ok elts => rw [← ih, hr]; simp [Except.isOk, Except.toBool]

/-- C5.  The spec demands that sub-second precision of the time difference
be preserved; the code truncates.  `epoch_minutes` embeds main.rs line 27,
where `chrono::Duration::num_seconds()` discards the fractional second
before the division by 60.  At a time difference of 90.5 seconds the code
passes 90/60 = 3/2 minutes to the propagator, while the exact difference is
90.5/60 = 181/120 minutes. -/
theorem epoch_minutes_truncates_subseconds :
    epoch_minutes 90500000000 = 3 / 2 ∧ specExactMinutes 90500000000 = 181 / 120 ∧
      epoch_minutes 90500000000 ≠ specExactMinutes 90500000000 := by
  have h : Int.tdiv 90500000000 1000000000 = 90 := by decide
  refine ⟨?_, ?_, ?_⟩ <;> norm_num [epoch_minutes, specExactMinutes, numSeconds, h]

/-- C9.  The naive element-set epoch is indeed reinterpreted as the same UTC
instant (`fromLocalUtc` is the identity), but the offset handed to the
propagator is not the exact difference in minutes: with the epoch of
`goodSat` at instant 0 and the query instant half a second later, the code
passes an offset of 0 minutes while the exact difference is 1/120 of a
minute — `num_seconds()` truncated the half second away. -/
theorem propagation_offset_truncated_at_halfsecond :
    processSat demoLib 500000000 goodSat = .ok (fromLocalUtc goodSat.datetime, 0) ∧
      specExactMinutes (500000000 - fromLocalUtc goodSat.datetime) = 1 / 120 ∧
      (0 : ℚ) ≠ 1 / 120 := by
  have h : Int.tdiv 500000000 1000000000 = 0 := by decide
  refine ⟨?_, ?_, ?_⟩ <;>
    norm_num [processSat, demoLib, goodSat, epoch_minutes, numSeconds, fromLocalUtc, h,
      specExactMinutes, Prod.ext_iff]

/-- C4 (ranker modelled from the spec; the source builds no ranking).  The
result of `rankResults` is sorted: every pair of entries in order satisfies
the total order "strictly smaller metric, or equal metric and catalog id not
larger", so the sequence is non-decreasing in the metric, entries with equal
metric appear with the smaller id first, and the output is a permutation of
the input, making the order total and reproducible. -/
theorem rankResults_sorted_by_metric_then_id (entries : List RankEntry) :
    (rankResults entries).Sorted
        (fun a b => a.distance < b.distance ∨ (a.distance = b.distance ∧ a.id ≤ b.id)) ∧
      (rankResults entries).Perm entries := by
  constructor
  · exact List.sorted_insertionSort rankLe entries
  · exact List.perm_insertionSort rankLe entries

/-- C6.  `haversine_distance` computes exactly the haversine formula of the
claim on the sphere of radius R = 6371.0 km: R times
`2*atan2(sqrt a, sqrt (1-a))` with
`a = sin^2(dlat/2) + cos(lat1)*cos(lat2)*sin^2(dlon/2)`, all angles
converted to radians. -/
theorem haversine_distance_eq_claim_formula (lat1 lon1 lat2 lon2 : ℝ) :
    haversine_distance lat1 lon1 lat2 lon2 = haversineClaimFormula lat1 lon1 lat2 lon2 := by
  simp only [haversine_distance, haversineA, haversineClaimFormula,
    toRadians_sub lat2 lat1, toRadians_sub lon2 lon1]

/-- C7.  The haversine distance is symmetric in its two coordinate pairs and
vanishes on the diagonal. -/
theorem haversine_symm_and_diag_zero (lat1 lon1 lat2 lon2 : ℝ) :
    haversine_distance lat1 lon1 lat2 lon2 = haversine_distance lat2 lon2 lat1 lon1 ∧
      haversine_distance lat1 lon1 lat1 lon1 = 0 := by
  constructor
  · have ha : haversineA lat1 lon1 lat2 lon2 = haversineA lat2 lon2 lat1 lon1 := by
      unfold haversineA
      have h1 : toRadians (lat1 - lat2) = -toRadians (lat2 - lat1) := by
        unfold toRadians; ring
      have h2 : toRadians (lon1 - lon2) = -toRadians (lon2 - lon1) := by
        unfold toRadians; ring
      rw [h1, h2, neg_div, Real.sin_neg, neg_div, Real.sin_neg]
      ring
    simp only [haversine_distance, ha]
  · have ha0 : haversineA lat1 lon1 lat1 lon1 = 0 := by
      unfold haversineA
      simp [toRadians, sub_self]
    have hat : atan2 0 1 = 0 := by
      unfold atan2
      rw [if_pos one_pos]
      simp [Real.arctan_zero]
    simp [haversine_distance, ha0, Real.sqrt_zero, Real.sqrt_one, hat]

/-- C10.  For latitudes within plus or minus 90 degrees the haversine
intermediate `a` lies in the unit interval, so both square-root arguments of
`haversine_distance` are non-negative and the returned distance is
non-negative and at most pi times 6371.0 km (finiteness is implicit in the
real-valued idealization). -/
theorem haversineA_and_distance_bounds (lat1 lon1 lat2 lon2 : ℝ)
    (h1 : |lat1| ≤ 90) (h2 : |lat2| ≤ 90) :
    0 ≤ haversineA lat1 lon1 lat2 lon2 ∧ haversineA lat1 lon1 lat2 lon2 ≤ 1 ∧
      0 ≤ haversine_distance lat1 lon1 lat2 lon2 ∧
      haversine_distance lat1 lon1 lat2 lon2 ≤ Real.pi * 6371.0 := by
  have hpi := Real.pi_pos
  have habs1 : |toRadians lat1| ≤ Real.pi / 2 := by
    unfold toRadians
    rw [abs_mul, abs_of_pos (show (0:ℝ) < Real.pi / 180 by positivity)]
    calc |lat1| * (Real.pi / 180) ≤ 90 * (Real.pi / 180) :=
          mul_le_mul_of_nonneg_right h1 (by positivity)
      _ = Real.pi / 2 := by ring
  have habs2 : |toRadians lat2| ≤ Real.pi / 2 := by
    unfold toRadians
    rw [abs_mul, abs_of_pos (show (0:ℝ) < Real.pi / 180 by positivity)]
    calc |lat2| * (Real.pi / 180) ≤ 90 * (Real.pi / 180) :=
          mul_le_mul_of_nonneg_right h2 (by positivity)
      _ = Real.pi / 2 := by ring
  have hc1 : 0 ≤ Real.cos (toRadians lat1) :=
    Real.cos_nonneg_of_mem_Icc (Set.mem_Icc.mpr (abs_le.mp habs1))
  have hc2 : 0 ≤ Real.cos (toRadians lat2) :=
    Real.cos_nonneg_of_mem_Icc (Set.mem_Icc.mpr (abs_le.mp habs2))
  have ha0 : 0 ≤ haversineA lat1 lon1 lat2 lon2 := by
    unfold haversineA
    exact add_nonneg (sq_nonneg _)
      (mul_nonneg (mul_nonneg hc1 hc2) (sq_nonneg _))
  have ha1 : haversineA lat1 lon1 lat2 lon2 ≤ 1 := by
    unfold haversineA
    rw [toRadians_sub lat2 lat1, sin_sq_half_eq]
    have hcos_sub := Real.cos_sub (toRadians lat2) (toRadians lat1)
    have hcos_add := Real.cos_add (toRadians lat1) (toRadians lat2)
    have hcle := Real.cos_le_one (toRadians lat1 + toRadians lat2)
    have hs1 := Real.sin_sq_le_one (toRadians (lon2 - lon1) / 2)
    have hs0 := sq_nonneg (Real.sin (toRadians (lon2 - lon1) / 2))
    nlinarith [mul_nonneg hc1 hc2, mul_le_mul_of_nonneg_left hs1 (mul_nonneg hc1 hc2)]
  have hsq1 : 0 ≤ Real.sqrt (haversineA lat1 lon1 lat2 lon2) := Real.sqrt_nonneg _
  have hsq2 : 0 ≤ Real.sqrt (1 - haversineA lat1 lon1 lat2 lon2) := Real.sqrt_nonneg _
  obtain ⟨hb1, hb2⟩ := atan2_nonneg_bounds hsq1 hsq2
  refine ⟨ha0, ha1, ?_, ?_⟩
  · simp only [haversine_distance]
    nlinarith
  · simp only [haversine_distance]
    nlinarith

/-- C10, witness: the bounds theorem applied at the origin pair of
coordinates. -/
theorem haversineA_and_distance_bounds_witness :
    0 ≤ haversineA 0 0 0 0 ∧ haversineA 0 0 0 0 ≤ 1 ∧
      0 ≤ haversine_distance 0 0 0 0 ∧
      haversine_distance 0 0 0 0 ≤ Real.pi * 6371.0 :=
  haversineA_and_distance_bounds 0 0 0 0 (by norm_num) (by norm_num)

end WhatsOverhead
